import Mathlib

/-
  Verification of the controller-evaluation harness in
  asteroids/fuzzy_asteroids.py (FuzzyAsteroidGame, TrainerEnvironment,
  evaluate_controller) against its specification.

  The file in src/ is shallowly embedded below.  Collaborators that live in
  modules not present under src/ (asteroids.game: AsteroidGame, sprites,
  run_single_game; asteroids.fuzzy_controller: SpaceShip) are modelled from
  the specification and carry a doc comment saying so.
-/

namespace FuzzyAsteroids

/-- A fault raised inside controller code (a Python exception, carried by its
message). -/
structure Fault where
  msg : String
deriving DecidableEq, Repr

/-- Modelled from the spec: the per-entity state tuple exposed by a sprite's
`.state` property (asteroids.game is not under src/): position, velocity,
size/category. -/
structure SpriteState where
  position : ℚ × ℚ
  velocity : ℚ × ℚ
  size : ℚ
deriving DecidableEq, Repr

/-- A live simulation sprite, exposing its value-copied state tuple. -/
structure Sprite where
  state : SpriteState
deriving DecidableEq, Repr

/-- The state snapshot dictionary returned by the `data` property of
FuzzyAsteroidGame: frame counter, map dimensions, asteroid states, bullet
states. -/
structure Snapshot where
  frame : ℕ
  map_dimensions : ℕ × ℕ
  asteroids : List SpriteState
  bullets : List SpriteState
deriving DecidableEq, Repr

/-- Modelled from the spec: the SpaceShip mediator of
asteroids.fuzzy_controller (not under src/), the per-frame Actuator relaying a
controller's intents: desired turn rate, desired thrust, and the Boolean
fire-request flag. -/
structure SpaceShip where
  turn_rate : ℚ
  thrust : ℚ
  fire_bullet : Bool
deriving DecidableEq, Repr

/-- An externally supplied controller object: its Python truthiness, whether
it has the required `actions` entrypoint, and the behaviour of that
entrypoint (returning the mutated SpaceShip, or raising a fault). -/
structure Controller where
  truthy : Bool
  hasActions : Bool
  actions : SpaceShip → Snapshot → Except Fault SpaceShip

/-- The mutable game state of a FuzzyAsteroidGame instance.  Fields inherited
from AsteroidGame (frame counter, window size, entity lists, player sprite
command fields, pending key presses) are the engine surface the src file
reads and writes; `bullets_fired` counts fire_bullet() calls. -/
structure GameState where
  frame_count : ℕ
  window_width : ℕ
  window_height : ℕ
  asteroid_list : List Sprite
  bullet_list : List Sprite
  player_turn_rate : ℚ
  player_thrust : ℚ
  bullets_fired : ℕ
  active_key_presses : List ℕ
  controller : Controller
  time_elapsed : ℚ

/-- The window size, as returned by `self.get_size()`. -/
def get_size (g : GameState) : ℕ × ℕ :=
  (g.window_width, g.window_height)

/-- Shallow embedding of the `data` property (fuzzy_asteroids.py lines
44-52).  Note: the source builds BOTH the asteroids entry and the bullets
entry from `self.asteroid_list`; this definition reproduces line 51 exactly
as written. -/
def data (g : GameState) : Snapshot :=
  { frame := g.frame_count
    map_dimensions := get_size g
    asteroids := g.asteroid_list.map Sprite.state
    bullets := g.asteroid_list.map Sprite.state }

/-- Modelled from the spec: `SpaceShip(self.player_sprite)` construction
(asteroids.fuzzy_controller is not under src/).  The Actuator starts from the
ship's current turn rate and thrust with no fire request pending. -/
def mkSpaceShip (g : GameState) : SpaceShip :=
  { turn_rate := g.player_turn_rate
    thrust := g.player_thrust
    fire_bullet := false }

/-- Modelled from the spec: `request_fire()` asserts the Boolean fire-request
flag of the Actuator; asserting it again changes nothing. -/
def request_fire (s : SpaceShip) : SpaceShip :=
  { s with fire_bullet := true }

/-- Modelled from the spec: `self.fire_bullet()` of AsteroidGame (not under
src/) fires exactly one bullet; modelled as counting fired bullets. -/
def fire_bullet (g : GameState) : GameState :=
  { g with bullets_fired := g.bullets_fired + 1 }

/-- The command-application tail of call_stored_controller (lines 66-72):
copy the SpaceShip's turn rate and thrust onto the player sprite, then fire
one bullet when the fire flag is set. -/
def apply_controller_actions (g : GameState) (ship : SpaceShip) : GameState :=
  let g1 := { g with player_turn_rate := ship.turn_rate
                     player_thrust := ship.thrust }
  if ship.fire_bullet then fire_bullet g1 else g1

/-- The body of the truthy branch of call_stored_controller (lines 59-72):
build the SpaceShip mediator, invoke `controller.actions(ship, self.data)`
directly (the call is NOT wrapped in the _timer_interface context manager, so
a raised fault propagates), then apply the commands. -/
def invoke_controller (g : GameState) : Except Fault GameState :=
  match g.controller.actions (mkSpaceShip g) (data g) with
  | .error e => .error e
  | .ok ship => .ok (apply_controller_actions g ship)

/-- Shallow embedding of call_stored_controller (lines 54-72), guard
included. -/
def call_stored_controller (g : GameState) : Except Fault GameState :=
  if g.controller.truthy then invoke_controller g else .ok g

/-- Modelled from the spec: `AsteroidGame.on_update` (not under src/) is the
engine's single-step simulation advance; modelled as the frame counter
increment. -/
def advance_simulation (g : GameState) : GameState :=
  { g with frame_count := g.frame_count + 1 }

/-- Shallow embedding of FuzzyAsteroidGame.on_update (lines 74-79): invoke
the stored controller only when no key presses are active, then advance the
simulation. -/
def on_update (g : GameState) : Except Fault GameState :=
  match (if g.active_key_presses.isEmpty then call_stored_controller g
         else .ok g) with
  | .error e => .error e
  | .ok g1 => .ok (advance_simulation g1)

/-- Shallow embedding of line 97, `self.time_elapsed = t1 - t0 / float(1E6)`:
by Python operator precedence this is t1 - (t0 / 1000000), not (t1 - t0). -/
def timer_time_elapsed (t0 t1 : ℚ) : ℚ :=
  t1 - t0 / 1000000

/-- A settings value is a Boolean or a number. -/
inductive SettingVal where
  | boolVal (b : Bool)
  | numVal (q : ℚ)
deriving DecidableEq, Repr

/-- A settings dictionary, observed through lookup. -/
abbrev Settings := String → Option SettingVal

/-- Errors surfacing from evaluate_controller: the ValueError and TypeError
raised by FuzzyAsteroidGame.__init__, and an uncaught controller fault. -/
inductive EvalError where
  | valueError (msg : String)
  | typeError (msg : String)
  | controllerFault (f : Fault)
deriving DecidableEq, Repr

/-- The message of the ValueError of line 33. -/
def valueErrorMsg : String :=
  "No controller object given to the FuzzyAsteroid() constructor"

/-- The message of the TypeError of lines 35-36. -/
def typeErrorMsg : String :=
  "Controller class given to FuzzyAsteroidGame doesn't have a method called" ++
  "actions() which is used to control the Ship"

/-- Modelled from the spec: `AsteroidGame.__init__` (not under src/)
constructs the fresh simulation environment; the frame counter starts at 0
and `self.time_elapsed = 0` is line 42 of src. -/
def init_game (controller : Controller) : GameState :=
  { frame_count := 0
    window_width := 800
    window_height := 600
    asteroid_list := []
    bullet_list := []
    player_turn_rate := 0
    player_thrust := 0
    bullets_fired := 0
    active_key_presses := []
    controller := controller
    time_elapsed := 0 }

/-- Shallow embedding of FuzzyAsteroidGame.__init__ (lines 25-42): a falsy
controller raises ValueError, a controller without the actions entrypoint
raises TypeError, and only then is the environment constructed. -/
def fuzzy_init (controller : Controller) (settings : Settings) :
    Except EvalError GameState :=
  if !controller.truthy then .error (.valueError valueErrorMsg)
  else if !controller.hasActions then .error (.typeError typeErrorMsg)
  else .ok (init_game controller)

/-- The Score object returned by a run. -/
structure Score where
  frame_count : ℕ
  bullets_fired : ℕ
deriving DecidableEq, Repr

/-- Modelled from the spec: the frame loop driven by run_single_game
(asteroids.game, not under src/) calls on_update once per frame until
termination; modelled with an explicit frame budget. -/
def run_frames : ℕ → GameState → Except Fault GameState
  | 0, g => .ok g
  | Nat.succ n, g =>
      match on_update g with
      | .error e => .error e
      | .ok g1 => run_frames n g1

/-- Modelled from the spec: run_single_game (asteroids.game, not under src/)
runs the game and returns the Score. -/
def run_single_game (fuel : ℕ) (g : GameState) : Except Fault Score :=
  match run_frames fuel g with
  | .error e => .error e
  | .ok g1 => .ok { frame_count := g1.frame_count
                    bullets_fired := g1.bullets_fired }

/-- Shallow embedding of evaluate_controller (lines 142-156): construct the
game (which may raise), then run a single game. -/
def evaluate_controller (controller : Controller) (settings : Settings)
    (fuel : ℕ) : Except EvalError Score :=
  match fuzzy_init controller settings with
  | .error e => .error e
  | .ok g =>
      match run_single_game fuel g with
      | .error f => .error (.controllerFault f)
      | .ok sc => .ok sc

/-- Shallow embedding of the settings override in TrainerEnvironment.__init__
(lines 109-122): `settings.update` with the literal five-key dictionary of
lines 113-119, observed through lookup. -/
def trainer_settings (s : Settings) : Settings :=
  fun k =>
    if k = "sound_on" then some (.boolVal false)
    else if k = "graphics_on" then some (.boolVal false)
    else if k = "real_time_multiplier" then some (.numVal 0)
    else if k = "prints" then some (.boolVal true)
    else if k = "allow_key_presses" then some (.boolVal false)
    else s k

/-- Shallow embedding of TrainerEnvironment.__init__: override the settings,
then call the FuzzyAsteroidGame constructor. -/
def trainer_init (controller : Controller) (s : Settings) :
    Except EvalError GameState :=
  fuzzy_init controller (trainer_settings s)

/-- Shallow embedding of TrainerEnvironment.on_key_press (lines 124-126): a
no-op. -/
def trainer_on_key_press (g : GameState) (symbol modifiers : ℕ) : GameState :=
  g

/-- Shallow embedding of TrainerEnvironment.on_key_release (lines 128-130): a
no-op. -/
def trainer_on_key_release (g : GameState) (symbol modifiers : ℕ) :
    GameState :=
  g

/- Concrete inputs used by witnesses and counterexamples. -/

/-- A well-behaved actions entrypoint: set thrust to 5 and request fire. -/
def okActions : SpaceShip → Snapshot → Except Fault SpaceShip :=
  fun s _ => .ok { s with thrust := 5, fire_bullet := true }

/-- An actions entrypoint that raises on every invocation. -/
def crashActions : SpaceShip → Snapshot → Except Fault SpaceShip :=
  fun _ _ => .error { msg := "boom" }

/-- A valid, truthy controller with an actions entrypoint. -/
def goodController : Controller :=
  { truthy := true, hasActions := true, actions := okActions }

/-- A falsy controller that nevertheless has the actions entrypoint. -/
def falsyController : Controller :=
  { truthy := false, hasActions := true, actions := okActions }

/-- A truthy controller lacking the actions entrypoint. -/
def noActionsController : Controller :=
  { truthy := true, hasActions := false, actions := okActions }

/-- A truthy controller whose actions entrypoint raises every frame. -/
def crashController : Controller :=
  { truthy := true, hasActions := true, actions := crashActions }

/-- An empty settings dictionary. -/
def emptySettings : Settings := fun _ => none

/-- A sample caller-supplied settings dictionary that sets graphics on and an
unrelated key. -/
def sampleSettings : Settings :=
  fun k =>
    if k = "graphics_on" then some (.boolVal true)
    else if k = "lives" then some (.numVal 3)
    else none

/-- A game state with a human key press pending. -/
def gameK : GameState :=
  { init_game goodController with active_key_presses := [32] }

/-- A concrete asteroid sprite. -/
def astA : Sprite :=
  { state := { position := (1, 2), velocity := (3, 4), size := 10 } }

/-- A concrete bullet sprite whose state differs from the asteroid's. -/
def bulB : Sprite :=
  { state := { position := (5, 6), velocity := (7, 8), size := 1 } }

/-- A game state with one live asteroid and one live bullet. -/
def gameAB : GameState :=
  { init_game goodController with
      asteroid_list := [astA]
      bullet_list := [bulB] }

/-- The fresh game constructed around goodController. -/
def gameW : GameState := init_game goodController

/-- The SpaceShip okActions returns on the fresh game. -/
def shipW : SpaceShip := { turn_rate := 0, thrust := 5, fire_bullet := true }

/-- C1: a controller whose actions() raises is NOT contained at the
invocation boundary: line 64 calls actions() outside the _timer_interface
wrapper, so the fault propagates out of on_update, out of the frame loop and
out of evaluate_controller. -/
theorem evaluate_controller_fault_propagates :
    on_update (init_game crashController) = .error { msg := "boom" } ∧
    evaluate_controller crashController emptySettings 5 =
      .error (.controllerFault { msg := "boom" }) :=
  ⟨rfl, rfl⟩

/-- C2: at a concrete state with one live asteroid (state A) and one live
bullet (state B ≠ A), the snapshot's bullets entry holds the asteroid's
state, not the states of the live bullets: line 51 iterates
self.asteroid_list. -/
theorem data_bullets_wrong_at_example :
    (data gameAB).bullets = [astA.state] ∧
    (data gameAB).bullets ≠ gameAB.bullet_list.map Sprite.state := by
  refine ⟨rfl, ?_⟩
  decide

/-- C3: for a controller that is falsy or lacks the actions entrypoint,
evaluate_controller surfaces the construction error of
FuzzyAsteroidGame.__init__ for every frame budget, so the error is raised
before any frame executes and before any snapshot is built. -/
theorem evaluate_controller_config_error (c : Controller) (s : Settings)
    (fuel : ℕ) (h : c.truthy = false ∨ c.hasActions = false) :
    (evaluate_controller c s fuel = .error (.valueError valueErrorMsg) ∨
     evaluate_controller c s fuel = .error (.typeError typeErrorMsg)) ∧
    evaluate_controller c s fuel = evaluate_controller c s 0 := by
  have hinit : fuzzy_init c s = .error (.valueError valueErrorMsg) ∨
      fuzzy_init c s = .error (.typeError typeErrorMsg) := by
    rcases h with h | h
    · left
      simp [fuzzy_init, h]
    · cases hct : c.truthy
      · left
        simp [fuzzy_init, hct]
      · right
        simp [fuzzy_init, hct, h]
  rcases hinit with h2 | h2
  · exact ⟨Or.inl (by simp [evaluate_controller, h2]),
      by simp [evaluate_controller, h2]⟩
  · exact ⟨Or.inr (by simp [evaluate_controller, h2]),
      by simp [evaluate_controller, h2]⟩

/-- C3 witness: the falsy controller triggers the configuration error at a
concrete input. -/
theorem evaluate_controller_config_error_witness :
    (falsyController.truthy = false ∨ falsyController.hasActions = false) ∧
    ((evaluate_controller falsyController emptySettings 7 =
        .error (.valueError valueErrorMsg) ∨
      evaluate_controller falsyController emptySettings 7 =
        .error (.typeError typeErrorMsg)) ∧
     evaluate_controller falsyController emptySettings 7 =
       evaluate_controller falsyController emptySettings 0) :=
  ⟨Or.inl rfl,
   evaluate_controller_config_error falsyController emptySettings 7
     (Or.inl rfl)⟩

/-- C4: when human key presses are pending (active_key_presses non-empty),
on_update does not invoke the controller: the frame is exactly the
simulation advance applied to the unchanged state. -/
theorem pending_keys_skip_controller (g : GameState)
    (h : g.active_key_presses ≠ []) :
    on_update g = .ok (advance_simulation g) := by
  have hemp : g.active_key_presses.isEmpty = false := by
    cases hk : g.active_key_presses with
    | nil => exact absurd hk h
    | cons a l => rfl
  simp [on_update, hemp]

/-- C4 witness: a concrete state with a pending key press skips the stored
controller. -/
theorem pending_keys_skip_controller_witness :
    gameK.active_key_presses ≠ [] ∧
    on_update gameK = .ok (advance_simulation gameK) :=
  ⟨by decide, pending_keys_skip_controller gameK (by decide)⟩

/-- C5: when the controller is invoked and its actions call returns, the
frame copies the Actuator's final turn rate and thrust onto the player ship,
fires one bullet iff the fire flag is set, and only then advances the
simulation; asserting request_fire any positive number of times yields the
same single Boolean flag, hence at most one bullet that frame. -/
theorem controller_commands_applied (g : GameState) (ship : SpaceShip)
    (hk : g.active_key_presses = [])
    (ht : g.controller.truthy = true)
    (ha : g.controller.actions (mkSpaceShip g) (data g) = .ok ship) :
    on_update g = .ok (advance_simulation (apply_controller_actions g ship)) ∧
    (apply_controller_actions g ship).player_turn_rate = ship.turn_rate ∧
    (apply_controller_actions g ship).player_thrust = ship.thrust ∧
    (apply_controller_actions g ship).bullets_fired =
      g.bullets_fired + (if ship.fire_bullet then 1 else 0) ∧
    ∀ (s : SpaceShip) (n : ℕ), 1 ≤ n →
      (request_fire^[n] s).fire_bullet = true := by
  refine ⟨?_, ?_, ?_, ?_, ?_⟩
  · simp [on_update, call_stored_controller, invoke_controller, hk, ht, ha]
  · cases hf : ship.fire_bullet <;>
      simp [apply_controller_actions, fire_bullet, hf]
  · cases hf : ship.fire_bullet <;>
      simp [apply_controller_actions, fire_bullet, hf]
  · cases hf : ship.fire_bullet <;>
      simp [apply_controller_actions, fire_bullet, hf]
  · intro s n hn
    cases n with
    | zero => exact absurd hn (by simp)
    | succ m =>
        rw [Function.iterate_succ_apply']
        rfl

/-- C5 witness: on the fresh game with goodController, the returned thrust 5
and fire request are applied before the advance. -/
theorem controller_commands_applied_witness :
    (gameW.active_key_presses = [] ∧
     gameW.controller.truthy = true ∧
     gameW.controller.actions (mkSpaceShip gameW) (data gameW) = .ok shipW) ∧
    (on_update gameW =
        .ok (advance_simulation (apply_controller_actions gameW shipW)) ∧
     (apply_controller_actions gameW shipW).player_turn_rate =
        shipW.turn_rate ∧
     (apply_controller_actions gameW shipW).player_thrust = shipW.thrust ∧
     (apply_controller_actions gameW shipW).bullets_fired =
        gameW.bullets_fired + (if shipW.fire_bullet then 1 else 0) ∧
     ∀ (s : SpaceShip) (n : ℕ), 1 ≤ n →
       (request_fire^[n] s).fire_bullet = true) :=
  ⟨⟨rfl, rfl, rfl⟩, controller_commands_applied gameW shipW rfl rfl rfl⟩

/-- C6: the TrainerEnvironment forces graphics off, sound off, zero
real-time multiplier and key presses disabled on every caller-supplied base
configuration, and its key-press and key-release handlers are no-ops. -/
theorem trainer_forces_headless :
    (∀ s : Settings,
      trainer_settings s "graphics_on" = some (.boolVal false) ∧
      trainer_settings s "sound_on" = some (.boolVal false) ∧
      trainer_settings s "real_time_multiplier" = some (.numVal 0) ∧
      trainer_settings s "allow_key_presses" = some (.boolVal false)) ∧
    (∀ g symbol modifiers, trainer_on_key_press g symbol modifiers = g) ∧
    (∀ g symbol modifiers, trainer_on_key_release g symbol modifiers = g) :=
  ⟨fun _ => ⟨rfl, rfl, rfl, rfl⟩, fun _ _ _ => rfl, fun _ _ _ => rfl⟩

/-- C7: the stored time_elapsed is t1 - t0 / 1000000 (Python precedence on
line 97), which at t0 = 1, t1 = 3 gives 2999999/1000000, not the wall-clock
duration t1 - t0 = 2. -/
theorem timer_time_elapsed_bug :
    timer_time_elapsed 1 3 = 2999999 / 1000000 ∧
    timer_time_elapsed 1 3 ≠ 3 - 1 := by
  constructor
  · norm_num [timer_time_elapsed]
  · norm_num [timer_time_elapsed]

/-- C8: for every game state, the bullets entry of the data snapshot is
built from the asteroid list, hence element-for-element equal to the
asteroids entry. -/
theorem data_bullets_equals_asteroids (g : GameState) :
    (data g).bullets = g.asteroid_list.map Sprite.state ∧
    (data g).bullets = (data g).asteroids :=
  ⟨rfl, rfl⟩

/-- C9: TrainerEnvironment.__init__ writes exactly the five keys sound_on,
graphics_on, real_time_multiplier, prints (forced to True) and
allow_key_presses into the caller's settings, and leaves every other key
unchanged. -/
theorem trainer_settings_exact_overrides (s : Settings) (k : String)
    (h : k ∉ ["sound_on", "graphics_on", "real_time_multiplier", "prints",
              "allow_key_presses"]) :
    trainer_settings s k = s k ∧
    trainer_settings s "sound_on" = some (.boolVal false) ∧
    trainer_settings s "graphics_on" = some (.boolVal false) ∧
    trainer_settings s "real_time_multiplier" = some (.numVal 0) ∧
    trainer_settings s "prints" = some (.boolVal true) ∧
    trainer_settings s "allow_key_presses" = some (.boolVal false) := by
  simp only [List.mem_cons, List.not_mem_nil, or_false, not_or] at h
  obtain ⟨h1, h2, h3, h4, h5⟩ := h
  refine ⟨?_, rfl, rfl, rfl, rfl, rfl⟩
  simp [trainer_settings, h1, h2, h3, h4, h5]

/-- C9 witness: the unrelated key lives is left unchanged by the trainer's
settings update on a concrete base configuration. -/
theorem trainer_settings_exact_overrides_witness :
    ("lives" ∉ ["sound_on", "graphics_on", "real_time_multiplier", "prints",
                "allow_key_presses"]) ∧
    (trainer_settings sampleSettings "lives" = sampleSettings "lives" ∧
     trainer_settings sampleSettings "sound_on" = some (.boolVal false) ∧
     trainer_settings sampleSettings "graphics_on" = some (.boolVal false) ∧
     trainer_settings sampleSettings "real_time_multiplier" =
        some (.numVal 0) ∧
     trainer_settings sampleSettings "prints" = some (.boolVal true) ∧
     trainer_settings sampleSettings "allow_key_presses" =
        some (.boolVal false)) :=
  ⟨by decide,
   trainer_settings_exact_overrides sampleSettings "lives" (by decide)⟩

/-- C10: every falsy controller makes FuzzyAsteroidGame.__init__ raise
ValueError (even one providing the actions entrypoint, since the truthiness
check comes first), and any successfully constructed game holds a truthy
controller, so the guard of call_stored_controller always takes the invoke
branch. -/
theorem falsy_controller_valueerror_and_guard
    (c c2 : Controller) (s s2 : Settings) (g : GameState)
    (h1 : c.truthy = false)
    (h2 : fuzzy_init c2 s2 = .ok g) :
    fuzzy_init c s = .error (.valueError valueErrorMsg) ∧
    g.controller.truthy = true ∧
    call_stored_controller g = invoke_controller g := by
  have hval : fuzzy_init c s = .error (.valueError valueErrorMsg) := by
    simp [fuzzy_init, h1]
  have htruthy : g.controller.truthy = true := by
    cases hct : c2.truthy with
    | false => simp [fuzzy_init, hct] at h2
    | true =>
        cases hha : c2.hasActions with
        | false => simp [fuzzy_init, hct, hha] at h2
        | true =>
            simp [fuzzy_init, hct, hha] at h2
            rw [← h2]
            exact hct
  exact ⟨hval, htruthy, by simp [call_stored_controller, htruthy]⟩

/-- C10 witness: falsyController has the actions entrypoint yet raises
ValueError, and the game constructed around goodController never skips the
controller. -/
theorem falsy_controller_valueerror_and_guard_witness :
    (falsyController.truthy = false ∧
     fuzzy_init goodController emptySettings = .ok gameW) ∧
    (fuzzy_init falsyController sampleSettings =
        .error (.valueError valueErrorMsg) ∧
     gameW.controller.truthy = true ∧
     call_stored_controller gameW = invoke_controller gameW) :=
  ⟨⟨rfl, rfl⟩,
   falsy_controller_valueerror_and_guard falsyController goodController
     sampleSettings emptySettings gameW rfl rfl⟩

end FuzzyAsteroids
